import Mathlib

/-!
Shallow embedding of the KahootCheats relay server
(src/server/routes.ts, src/server/storage.ts, src/shared/schema.ts).

JavaScript `Map`s are modelled as association lists in insertion order
(`Map.set` on an existing key replaces in place, otherwise appends, matching
the iteration order of `Map.values()`).  JS `undefined`/`null` become
`Option`.  The external `kahoot.js` client object becomes an abstract
`ClientId`; `client.join`/`client.leave` track membership of the client in
the remote game via `connectedClients`, and event subscription is a list of
`Handler`s capturing the `(client, gamePin, ws)` closure of
`setupKahootClientEvents`.
-/

namespace KahootCheats

/-! ## Data model (src/shared/schema.ts) -/

/-- One displayed answer option: `{text, color, shape, isCorrect}` as built in
the `questionStart` handler.  `color`/`shape` are `Option` because
`colors[index]` is `undefined` for `index ≥ 4`. -/
structure Answer where
  text : String
  color : Option String
  shape : Option String
  isCorrect : Bool
deriving DecidableEq, Repr

/-- Row of the `game_sessions` table. -/
structure GameSession where
  id : Nat
  gamePin : String
  gameId : Option String
  active : Bool
  questionCount : Nat
  currentQuestion : Nat
  createdAt : String
deriving DecidableEq, Repr

/-- Row of the `questions` table. -/
structure Question where
  id : Nat
  gameSessionId : Nat
  questionIndex : Nat
  questionText : String
  questionType : String
  answers : List Answer
  correctAnswer : Option Answer
  timeLimit : Nat
  points : Nat
deriving DecidableEq, Repr

/-- Row of the `users` table. -/
structure User where
  id : Nat
  username : String
  password : String
deriving DecidableEq, Repr

/-- `InsertGameSession`: a session without its id. -/
structure InsertGameSession where
  gamePin : String
  gameId : Option String
  active : Bool
  questionCount : Nat
  currentQuestion : Nat
  createdAt : String
deriving DecidableEq, Repr

/-- `InsertQuestion`: a question without its id. -/
structure InsertQuestion where
  gameSessionId : Nat
  questionIndex : Nat
  questionText : String
  questionType : String
  answers : List Answer
  correctAnswer : Option Answer
  timeLimit : Nat
  points : Nat
deriving DecidableEq, Repr

/-- `Partial<GameSession>`: every field optionally updated. -/
structure SessionUpdate where
  gamePin : Option String
  gameId : Option (Option String)
  active : Option Bool
  questionCount : Option Nat
  currentQuestion : Option Nat
  createdAt : Option String
deriving DecidableEq, Repr

/-- The empty `Partial<GameSession>`. -/
def SessionUpdate.none : SessionUpdate := ⟨Option.none, Option.none, Option.none, Option.none, Option.none, Option.none⟩

/-- `Partial<Question>`: every field optionally updated. -/
structure QuestionUpdate where
  gameSessionId : Option Nat
  questionIndex : Option Nat
  questionText : Option String
  questionType : Option String
  answers : Option (List Answer)
  correctAnswer : Option (Option Answer)
  timeLimit : Option Nat
  points : Option Nat
deriving DecidableEq, Repr

/-- The empty `Partial<Question>`. -/
def QuestionUpdate.none : QuestionUpdate := ⟨Option.none, Option.none, Option.none, Option.none, Option.none, Option.none, Option.none, Option.none⟩

/-- JS object spread `{...session, ...sessionUpdate}`. -/
def applySessionUpdate (s : GameSession) (u : SessionUpdate) : GameSession :=
  { id := s.id
    gamePin := u.gamePin.getD s.gamePin
    gameId := u.gameId.getD s.gameId
    active := u.active.getD s.active
    questionCount := u.questionCount.getD s.questionCount
    currentQuestion := u.currentQuestion.getD s.currentQuestion
    createdAt := u.createdAt.getD s.createdAt }

/-- JS object spread `{...question, ...questionUpdate}`. -/
def applyQuestionUpdate (q : Question) (u : QuestionUpdate) : Question :=
  { id := q.id
    gameSessionId := u.gameSessionId.getD q.gameSessionId
    questionIndex := u.questionIndex.getD q.questionIndex
    questionText := u.questionText.getD q.questionText
    questionType := u.questionType.getD q.questionType
    answers := u.answers.getD q.answers
    correctAnswer := u.correctAnswer.getD q.correctAnswer
    timeLimit := u.timeLimit.getD q.timeLimit
    points := u.points.getD q.points }

/-! ## MemStorage (src/server/storage.ts) -/

/-- `MemStorage`: the three in-memory maps (values in insertion order) and the
running id counters. -/
structure MemStorage where
  users : List User
  gameSessions : List GameSession
  questions : List Question
  currentUserId : Nat
  currentGameSessionId : Nat
  currentQuestionId : Nat
deriving DecidableEq, Repr

/-- The freshly constructed store. -/
def MemStorage.init : MemStorage := ⟨[], [], [], 1, 1, 1⟩

/-- `createGameSession`: allocate the next id, insert, return the session. -/
def MemStorage.createGameSession (st : MemStorage) (ins : InsertGameSession) :
    MemStorage × GameSession :=
  let id := st.currentGameSessionId
  let s : GameSession :=
    { id := id, gamePin := ins.gamePin, gameId := ins.gameId, active := ins.active,
      questionCount := ins.questionCount, currentQuestion := ins.currentQuestion,
      createdAt := ins.createdAt }
  ({ st with gameSessions := st.gameSessions ++ [s],
             currentGameSessionId := id + 1 }, s)

/-- `getGameSession(id)`. -/
def MemStorage.getGameSession (st : MemStorage) (id : Nat) : Option GameSession :=
  st.gameSessions.find? (fun s => s.id == id)

/-- `getGameSessionByPin`: linear scan for a session whose pin matches and
whose `active` flag is set. -/
def MemStorage.getGameSessionByPin (st : MemStorage) (gamePin : String) :
    Option GameSession :=
  st.gameSessions.find? (fun s => s.gamePin == gamePin && s.active)

/-- `updateGameSession(id, update)`: no-op returning `undefined` when the id is
absent, otherwise replace the stored session in place with the merge. -/
def MemStorage.updateGameSession (st : MemStorage) (id : Nat) (u : SessionUpdate) :
    MemStorage × Option GameSession :=
  match st.gameSessions.find? (fun s => s.id == id) with
  | Option.none => (st, Option.none)
  | some s =>
    let s' := applySessionUpdate s u
    ({ st with gameSessions :=
        st.gameSessions.map (fun t => if t.id == id then s' else t) }, some s')

/-- `createQuestion`. -/
def MemStorage.createQuestion (st : MemStorage) (ins : InsertQuestion) :
    MemStorage × Question :=
  let id := st.currentQuestionId
  let q : Question :=
    { id := id, gameSessionId := ins.gameSessionId, questionIndex := ins.questionIndex,
      questionText := ins.questionText, questionType := ins.questionType,
      answers := ins.answers, correctAnswer := ins.correctAnswer,
      timeLimit := ins.timeLimit, points := ins.points }
  ({ st with questions := st.questions ++ [q], currentQuestionId := id + 1 }, q)

/-- `getQuestionsByGameSession`. -/
def MemStorage.getQuestionsByGameSession (st : MemStorage) (gameSessionId : Nat) :
    List Question :=
  st.questions.filter (fun q => q.gameSessionId == gameSessionId)

/-- `getQuestionByIndex`: linear scan by owning session and question index. -/
def MemStorage.getQuestionByIndex (st : MemStorage) (gameSessionId : Nat) (index : Nat) :
    Option Question :=
  st.questions.find? (fun q => q.gameSessionId == gameSessionId && q.questionIndex == index)

/-- `updateQuestion(id, update)`: no-op returning `undefined` when the id is
absent, otherwise replace the stored question in place with the merge. -/
def MemStorage.updateQuestion (st : MemStorage) (id : Nat) (u : QuestionUpdate) :
    MemStorage × Option Question :=
  match st.questions.find? (fun q => q.id == id) with
  | Option.none => (st, Option.none)
  | some q =>
    let q' := applyQuestionUpdate q u
    ({ st with questions :=
        st.questions.map (fun t => if t.id == id then q' else t) }, some q')

/-! ## Relay state (src/server/routes.ts) -/

/-- A browser WebSocket connection. -/
abbrev ConnId := Nat

/-- An external `kahoot.js` client object. -/
abbrev ClientId := Nat

/-- Entry of the `clients` map: `{gamePin, kahootClient, username}`. -/
structure ClientRecord where
  gamePin : Option String
  kahootClient : Option ClientId
  username : Option String
deriving DecidableEq, Repr

/-- The all-null client record `{gamePin: null, kahootClient: null, username: null}`. -/
def ClientRecord.cleared : ClientRecord := ⟨Option.none, Option.none, Option.none⟩

/-- Payload of the `quizStart` event (the fields the handlers read). -/
structure QuizPayload where
  name : String
  questionCount : Nat
deriving DecidableEq, Repr

/-- One element of `question.choices`. -/
structure Choice where
  answer : String
deriving DecidableEq, Repr

/-- Payload of the `questionStart` event (the fields the handlers read).
`question`/`qtype` are `Option` to model a possibly absent JS field
(read through `||` with a default). -/
structure QuestionPayload where
  index : Nat
  choices : List Choice
  question : Option String
  qtype : Option String
  timeLimit : Nat
  points : Nat
deriving DecidableEq, Repr

/-- Payload of the `questionEnd` event. -/
structure QuestionEndPayload where
  questionIndex : Nat
  correctChoices : List Bool
deriving DecidableEq, Repr

/-- Payload of the `quizEnd` event. -/
structure QuizEndPayload where
  questionCount : Nat
deriving DecidableEq, Repr

/-- Entry of the `activeGames` map. -/
structure GameData where
  client : ClientId
  players : List ConnId
  currentQuiz : Option QuizPayload
  currentQuestion : Option QuestionPayload
  questionAnswers : List Answer
  correctAnswers : List Nat
  currentQuestionIndex : Nat
  totalQuestions : Nat
  points : Nat
deriving DecidableEq, Repr

/-- One registration made by `setupKahootClientEvents`: the event callbacks of
`client` close over `gamePin` and `ws`. -/
structure Handler where
  client : ClientId
  gamePin : String
  ws : ConnId
deriving DecidableEq, Repr

/-- Every distinct message the server writes to a WebSocket, one constructor
per `ws.send(JSON.stringify(...))` site. -/
inductive ServerMsg where
  | quizStartState (gamePin : String) (current total points : Nat)
  | questionState (gamePin : String) (text qtype : String) (answers : List Answer)
      (timeLeft : Nat) (current total points : Nat)
  | questionResult (correctIndices : List Nat) (questionIndex : Nat)
  | quizEndState (gamePin : String) (current total points : Nat)
  | errorMsg (message : String)
  | disconnectedState
deriving DecidableEq, Repr

/-- Whole server state: the two module-level maps, the registered event
handlers, which external clients are currently joined to the remote game
(`client.join` adds, `client.leave` removes), the storage singleton, and the
allocator for fresh client objects. -/
structure ServerState where
  clients : List (ConnId × ClientRecord)
  activeGames : List (String × GameData)
  handlers : List Handler
  connectedClients : List ClientId
  storage : MemStorage
  nextClientId : ClientId
deriving DecidableEq, Repr

/-- The state before any connection. -/
def ServerState.init : ServerState := ⟨[], [], [], [], MemStorage.init, 0⟩

/-- `Map.get`. -/
def mapGet {α β : Type} [BEq α] (m : List (α × β)) (k : α) : Option β :=
  (m.find? (fun p => p.1 == k)).map Prod.snd

/-- `Map.set`: replace in place when the key exists, else append. -/
def mapSet {α β : Type} [BEq α] (m : List (α × β)) (k : α) (v : β) : List (α × β) :=
  if m.any (fun p => p.1 == k) then m.map (fun p => if p.1 == k then (k, v) else p)
  else m ++ [(k, v)]

/-- `Map.delete`. -/
def mapDelete {α β : Type} [BEq α] (m : List (α × β)) (k : α) : List (α × β) :=
  m.filter (fun p => p.1 != k)

/-- `Set.add` on a JS `Set` (insertion order, no duplicates). -/
def setAdd (s : List ConnId) (x : ConnId) : List ConnId :=
  if x ∈ s then s else s ++ [x]

/-- JS `a || d` for a possibly-absent string (both `undefined` and `""` are
falsy). -/
def jsOrStr (a : Option String) (d : String) : String :=
  match a with
  | some s => if s == "" then d else s
  | Option.none => d

/-- The fixed color array. -/
def colors : List String := ["red", "blue", "yellow", "green"]

/-- The fixed shape array. -/
def shapes : List String := ["triangle", "square", "circle", "diamond"]

/-- `question.choices.map((choice, index) => ({text, color: colors[index],
shape: shapes[index], isCorrect: false}))`, with the running index made
explicit. -/
def mapChoicesFrom (i : Nat) : List Choice → List Answer
  | [] => []
  | c :: rest =>
    { text := c.answer, color := colors[i]?, shape := shapes[i]?, isCorrect := false }
      :: mapChoicesFrom (i + 1) rest

/-- The answer-display mapping of the `questionStart` handler. -/
def mapChoices (choices : List Choice) : List Answer := mapChoicesFrom 0 choices

/-- The loop of the `questionEnd` handler collecting the indices of the true
entries of `correctChoices`. -/
def correctIndicesFrom (i : Nat) : List Bool → List Nat
  | [] => []
  | b :: rest =>
    if b then i :: correctIndicesFrom (i + 1) rest else correctIndicesFrom (i + 1) rest

/-- `correctIndices` computed by the `questionEnd` handler. -/
def correctIndicesOf (cs : List Bool) : List Nat := correctIndicesFrom 0 cs

/-- `answers.map((ans, idx) => ({...ans, isCorrect: correctIndices.includes(idx)}))`. -/
def markCorrectFrom (correct : List Nat) (i : Nat) : List Answer → List Answer
  | [] => []
  | a :: rest =>
    { a with isCorrect := decide (i ∈ correct) } :: markCorrectFrom correct (i + 1) rest

/-! ## KahootService operations -/

/-- Private `KahootService.updateGameSession`: look the session up by pin and
update it when found, silently doing nothing otherwise. -/
def svcUpdateGameSession (s : ServerState) (gamePin : String) (u : SessionUpdate) :
    ServerState :=
  match s.storage.getGameSessionByPin gamePin with
  | Option.none => s
  | some sess => { s with storage := (s.storage.updateGameSession sess.id u).1 }

/-- Private `KahootService.getCurrentQuestion`. -/
def svcGetCurrentQuestion (s : ServerState) (gamePin : String) : Option Question :=
  match s.storage.getGameSessionByPin gamePin with
  | Option.none => Option.none
  | some sess =>
    match mapGet s.activeGames gamePin with
    | Option.none => Option.none
    | some game => s.storage.getQuestionByIndex sess.id game.currentQuestionIndex

/-- `client.on("quizStart")` callback of `setupKahootClientEvents`. -/
def handleQuizStart (s : ServerState) (h : Handler) (quiz : QuizPayload) :
    ServerState × List (ConnId × ServerMsg) :=
  match mapGet s.activeGames h.gamePin with
  | Option.none => (s, [])
  | some game =>
    let game' := { game with currentQuiz := some quiz, totalQuestions := quiz.questionCount }
    let s₁ := { s with activeGames := mapSet s.activeGames h.gamePin game' }
    let s₂ := svcUpdateGameSession s₁ h.gamePin
      { SessionUpdate.none with questionCount := some quiz.questionCount }
    (s₂, [(h.ws, ServerMsg.quizStartState h.gamePin 0 quiz.questionCount 0)])

/-- `client.on("questionStart")` callback. -/
def handleQuestionStart (s : ServerState) (h : Handler) (q : QuestionPayload) :
    ServerState × List (ConnId × ServerMsg) :=
  match mapGet s.activeGames h.gamePin with
  | Option.none => (s, [])
  | some game =>
    let game' := { game with currentQuestion := some q, currentQuestionIndex := q.index,
                             questionAnswers := [] }
    let s₁ := { s with activeGames := mapSet s.activeGames h.gamePin game' }
    let answers := mapChoices q.choices
    let s₂ :=
      match s₁.storage.getGameSessionByPin h.gamePin with
      | Option.none => s₁
      | some session =>
        let (st, _) := s₁.storage.createQuestion
          { gameSessionId := session.id, questionIndex := q.index,
            questionText := jsOrStr q.question "Unknown question",
            questionType := jsOrStr q.qtype "Multiple Choice",
            answers := answers, correctAnswer := Option.none,
            timeLimit := q.timeLimit / 1000, points := q.points }
        svcUpdateGameSession { s₁ with storage := st } h.gamePin
          { SessionUpdate.none with currentQuestion := some q.index }
    (s₂, [(h.ws, ServerMsg.questionState h.gamePin
            (jsOrStr q.question "Unknown question") (jsOrStr q.qtype "Multiple Choice")
            answers (q.timeLimit / 1000) (q.index + 1) game'.totalQuestions game'.points)])

/-- The `Partial<Question>` passed to `updateQuestion` by the `questionEnd`
handler: the remapped answers and the first correct answer (JS `null` when
none, `undefined` when the index runs past the answer list — both
`Option.none` here). -/
def questionEndUpdate (correct : List Nat) (question : Question) : QuestionUpdate :=
  let updatedAnswers := markCorrectFrom correct 0 question.answers
  let ca : Option Answer :=
    match correct with
    | [] => Option.none
    | i :: _ => updatedAnswers[i]?
  { QuestionUpdate.none with answers := some updatedAnswers, correctAnswer := some ca }

/-- `client.on("questionEnd")` callback. -/
def handleQuestionEnd (s : ServerState) (h : Handler) (ev : QuestionEndPayload) :
    ServerState × List (ConnId × ServerMsg) :=
  match mapGet s.activeGames h.gamePin with
  | Option.none => (s, [])
  | some game =>
    let correctIndices := correctIndicesOf ev.correctChoices
    let game' := { game with correctAnswers := correctIndices }
    let s₁ := { s with activeGames := mapSet s.activeGames h.gamePin game' }
    let s₂ :=
      match s₁.storage.getGameSessionByPin h.gamePin with
      | Option.none => s₁
      | some session =>
        match s₁.storage.getQuestionByIndex session.id ev.questionIndex with
        | Option.none => s₁
        | some question =>
          { s₁ with storage := (s₁.storage.updateQuestion question.id
              (questionEndUpdate correctIndices question)).1 }
    match svcGetCurrentQuestion s₂ h.gamePin with
    | Option.none => (s₂, [])
    | some _ => (s₂, [(h.ws, ServerMsg.questionResult correctIndices ev.questionIndex)])

/-- `client.on("quizEnd")` callback. -/
def handleQuizEnd (s : ServerState) (h : Handler) (ev : QuizEndPayload) :
    ServerState × List (ConnId × ServerMsg) :=
  let s₁ := svcUpdateGameSession s h.gamePin
    { SessionUpdate.none with active := some false }
  let pts : Nat :=
    match mapGet s₁.activeGames h.gamePin with
    | some g => g.points
    | Option.none => 0
  (s₁, [(h.ws, ServerMsg.quizEndState h.gamePin ev.questionCount ev.questionCount pts)])

/-- `KahootService.cleanupGame`: drop the connection from the game's player
set (deleting the game when it empties) and null out the connection's
record. -/
def cleanupGame (s : ServerState) (gamePin : String) (ws : ConnId) : ServerState :=
  let s₁ :=
    match mapGet s.activeGames gamePin with
    | Option.none => s
    | some game =>
      let players' := game.players.filter (fun p => p != ws)
      if players'.isEmpty then { s with activeGames := mapDelete s.activeGames gamePin }
      else { s with activeGames := mapSet s.activeGames gamePin { game with players := players' } }
  { s₁ with clients := mapSet s₁.clients ws ClientRecord.cleared }

/-- `client.on("error")` callback. -/
def handleClientError (s : ServerState) (h : Handler) (err : String) :
    ServerState × List (ConnId × ServerMsg) :=
  (s, [(h.ws, ServerMsg.errorMsg ("Error with Kahoot game: " ++ err))])

/-- `client.on("disconnect")` callback: notify the connection, then clean up. -/
def handleClientDisconnect (s : ServerState) (h : Handler) (_reason : String) :
    ServerState × List (ConnId × ServerMsg) :=
  (cleanupGame s h.gamePin h.ws, [(h.ws, ServerMsg.disconnectedState)])

/-- `KahootService.disconnectFromGame`: `leave()` the connection's client
handle if it has one, then clean up. -/
def disconnectFromGame (s : ServerState) (gamePin : String) (ws : ConnId) :
    ServerState × Bool :=
  let s₁ :=
    match mapGet s.clients ws with
    | some r =>
      match r.kahootClient with
      | some c => { s with connectedClients := s.connectedClients.filter (fun x => x != c) }
      | Option.none => s
    | Option.none => s
  (cleanupGame s₁ gamePin ws, true)

/-- `KahootService.joinGame`.  `joinOk` stands for whether `client.join`
resolves; when it rejects, the `catch` skips everything after the `await`
(the handlers were already registered before the join).  `now` stands for
`new Date().toISOString()`. -/
def joinGame (s : ServerState) (gamePin : String) (ws : ConnId) (joinOk : Bool)
    (randomName : String) (now : String) : ServerState × Bool :=
  let c := s.nextClientId
  let s₀ := { s with nextClientId := c + 1,
                     handlers := s.handlers ++ [{ client := c, gamePin := gamePin, ws := ws }] }
  if joinOk then
    let s₁ := { s₀ with connectedClients := s₀.connectedClients ++ [c] }
    let rec' : ClientRecord :=
      { gamePin := some gamePin, kahootClient := some c, username := some randomName }
    let s₂ := { s₁ with clients := mapSet s₁.clients ws rec' }
    let st := (s₂.storage.createGameSession
      { gamePin := gamePin, gameId := some ("kahoot-" ++ gamePin), active := true,
        questionCount := 0, currentQuestion := 0, createdAt := now }).1
    let s₃ := { s₂ with storage := st }
    let s₄ :=
      match mapGet s₃.activeGames gamePin with
      | Option.none =>
        { s₃ with activeGames := s₃.activeGames ++
            [(gamePin, { client := c, players := [ws], currentQuiz := Option.none,
                         currentQuestion := Option.none, questionAnswers := [],
                         correctAnswers := [], currentQuestionIndex := 0,
                         totalQuestions := 0, points := 0 })] }
      | some game =>
        let g' := { game with players := setAdd game.players ws }
        { s₃ with activeGames := mapSet s₃.activeGames gamePin g' }
    (s₄, true)
  else (s₀, false)

/-- `KahootService.selectAnswer`: the guards of the method; the answer itself
goes to the external service, so the local state is unchanged. -/
def selectAnswer (s : ServerState) (gamePin : String) (_answerIndex : Int) (ws : ConnId) :
    ServerState × Bool :=
  match mapGet s.clients ws with
  | Option.none => (s, false)
  | some r =>
    match r.kahootClient with
    | Option.none => (s, false)
    | some _ =>
      match mapGet s.activeGames gamePin with
      | Option.none => (s, false)
      | some game =>
        match game.currentQuestion with
        | Option.none => (s, false)
        | some _ => (s, true)

/-! ## Event dispatch -/

/-- The six events `setupKahootClientEvents` subscribes to. -/
inductive KahootEvent where
  | quizStart (q : QuizPayload)
  | questionStart (q : QuestionPayload)
  | questionEnd (r : QuestionEndPayload)
  | quizEnd (q : QuizEndPayload)
  | error (msg : String)
  | disconnect (reason : String)
deriving DecidableEq, Repr

/-- Run the callback a handler registered for one event. -/
def runHandler (s : ServerState) (h : Handler) : KahootEvent → ServerState × List (ConnId × ServerMsg)
  | KahootEvent.quizStart q => handleQuizStart s h q
  | KahootEvent.questionStart q => handleQuestionStart s h q
  | KahootEvent.questionEnd r => handleQuestionEnd s h r
  | KahootEvent.quizEnd q => handleQuizEnd s h q
  | KahootEvent.error m => handleClientError s h m
  | KahootEvent.disconnect r => handleClientDisconnect s h r

/-- Delivery of an event emitted by external client `c`: only a client still
joined to the remote game emits, and its registered callbacks run. -/
def deliverEvent (s : ServerState) (c : ClientId) (ev : KahootEvent) :
    ServerState × List (ConnId × ServerMsg) :=
  if c ∈ s.connectedClients then
    match s.handlers.find? (fun h => h.client == c) with
    | some h => runHandler s h ev
    | Option.none => (s, [])
  else (s, [])

/-! ## Transport layer (ws.on("message") and clientMessageSchema) -/

/-- JSON values (numbers restricted to integers; no claim depends on
fractional values). -/
inductive Json where
  | null
  | bool (b : Bool)
  | num (n : Int)
  | str (s : String)
  | arr (xs : List Json)
  | obj (fields : List (String × Json))

/-- An inbound frame: either text that `JSON.parse` rejects, or a parsed JSON
value. -/
inductive RawInbound where
  | notJson
  | json (j : Json)

/-- The `answer` sub-object of `clientMessageSchema`. -/
structure AnswerSel where
  index : Option Int
  color : Option String
deriving DecidableEq, Repr

/-- The `type` enum of `clientMessageSchema`. -/
inductive MsgType where
  | join
  | disconnect
  | selectAnswer
  | toggleAutoAnswer
  | toggleAnswerDelay
deriving DecidableEq, Repr

/-- A message that passed `clientMessageSchema.parse`. -/
structure ClientMessage where
  type : MsgType
  gamePin : Option String
  answer : Option AnswerSel
  autoAnswer : Option Bool
  answerDelay : Option Bool
deriving DecidableEq, Repr

/-- Field lookup on a JSON object (`undefined` when absent or not an object). -/
def Json.getField : Json → String → Option Json
  | Json.obj fields, k => mapGet fields k
  | _, _ => Option.none

/-- `z.enum(["join", ...])`. -/
def parseMsgType : Json → Option MsgType
  | Json.str "join" => some MsgType.join
  | Json.str "disconnect" => some MsgType.disconnect
  | Json.str "selectAnswer" => some MsgType.selectAnswer
  | Json.str "toggleAutoAnswer" => some MsgType.toggleAutoAnswer
  | Json.str "toggleAnswerDelay" => some MsgType.toggleAnswerDelay
  | _ => Option.none

/-- `z.string().optional()`: absent is fine, present must be a string. -/
def parseOptStr : Option Json → Option (Option String)
  | Option.none => some Option.none
  | some (Json.str s) => some (some s)
  | some _ => Option.none

/-- `z.number().optional()`. -/
def parseOptNum : Option Json → Option (Option Int)
  | Option.none => some Option.none
  | some (Json.num n) => some (some n)
  | some _ => Option.none

/-- `z.boolean().optional()`. -/
def parseOptBool : Option Json → Option (Option Bool)
  | Option.none => some Option.none
  | some (Json.bool b) => some (some b)
  | some _ => Option.none

/-- `z.object({index: z.number().optional(), color: z.string().optional()}).optional()`. -/
def parseAnswerSel : Option Json → Option (Option AnswerSel)
  | Option.none => some Option.none
  | some (Json.obj fields) =>
    match parseOptNum (mapGet fields "index"), parseOptStr (mapGet fields "color") with
    | some i, some c => some (some { index := i, color := c })
    | _, _ => Option.none
  | some _ => Option.none

/-- `clientMessageSchema.parse`: fails unless the value is an object whose
`type` is one of the five commands and whose optional fields, when present,
have the right shapes. -/
def clientMessageParse (j : Json) : Option ClientMessage :=
  match j with
  | Json.obj _ =>
    match (j.getField "type").bind parseMsgType,
          parseOptStr (j.getField "gamePin"),
          parseAnswerSel (j.getField "answer"),
          parseOptBool (j.getField "autoAnswer"),
          parseOptBool (j.getField "answerDelay") with
    | some t, some pin, some ans, some auto, some delay =>
      some { type := t, gamePin := pin, answer := ans, autoAnswer := auto,
             answerDelay := delay }
    | _, _, _, _, _ => Option.none
  | _ => Option.none

/-- `JSON.parse` followed by `clientMessageSchema.parse`; `none` is the
thrown-and-caught path. -/
def parseInbound : RawInbound → Option ClientMessage
  | RawInbound.notJson => Option.none
  | RawInbound.json j => clientMessageParse j

/-- The `ws.on("message")` callback: parse and validate, then dispatch on the
command; any parse/validation failure is caught and answered with the one
generic error message.  `joinOk`, `randomName` and `now` stand for the
environment of a `join` (whether `client.join` resolves, the random player
name, the clock). -/
def handleMessage (s : ServerState) (ws : ConnId) (raw : RawInbound) (joinOk : Bool)
    (randomName : String) (now : String) : ServerState × List (ConnId × ServerMsg) :=
  match parseInbound raw with
  | Option.none => (s, [(ws, ServerMsg.errorMsg "Invalid message format or action")])
  | some m =>
    match m.type with
    | MsgType.join =>
      match m.gamePin with
      | some pin =>
        if pin == "" then (s, [])
        else
          let (s', ok) := joinGame s pin ws joinOk randomName now
          if ok then (s', [])
          else (s', [(ws, ServerMsg.errorMsg
                  "Could not join game. Invalid PIN or game not found.")])
      | Option.none => (s, [])
    | MsgType.disconnect =>
      match mapGet s.clients ws with
      | some r =>
        match r.gamePin with
        | some oldPin =>
          let s' := (disconnectFromGame s oldPin ws).1
          (s', [(ws, ServerMsg.disconnectedState)])
        | Option.none => (s, [])
      | Option.none => (s, [])
    | MsgType.selectAnswer =>
      match mapGet s.clients ws with
      | some r =>
        match r.gamePin, m.answer.bind (fun a => a.index) with
        | some pin, some idx => ((selectAnswer s pin idx ws).1, [])
        | _, _ => (s, [])
      | Option.none => (s, [])
    | MsgType.toggleAutoAnswer => (s, [])
    | MsgType.toggleAnswerDelay => (s, [])

/-- The text `{"type": "disconnect"}` after `JSON.parse`. -/
def disconnectRaw : RawInbound :=
  RawInbound.json (Json.obj [("type", Json.str "disconnect")])

/-- The text `{"type": "join", "gamePin": pin}` after `JSON.parse`. -/
def joinRaw (pin : String) : RawInbound :=
  RawInbound.json (Json.obj [("type", Json.str "join"), ("gamePin", Json.str pin)])

/-! ## Helper lemmas -/

theorem find?_keyreplace {α β : Type} [BEq α] [LawfulBEq α] :
    ∀ (m : List (α × β)) (k : α) (v : β), m.any (fun p => p.1 == k) = true →
      (m.map (fun p => if p.1 == k then (k, v) else p)).find? (fun p => p.1 == k)
        = some (k, v)
  | [], _, _, h => by simp at h
  | p :: rest, k, v, h => by
    by_cases hk : (p.1 == k) = true
    · rw [List.map_cons, if_pos hk]
      exact List.find?_cons_of_pos _ (by simp)
    · rw [List.map_cons, if_neg hk]
      have step :
          List.find? (fun q => q.1 == k)
              (p :: List.map (fun q => if q.1 == k then (k, v) else q) rest)
            = List.find? (fun q => q.1 == k)
                (List.map (fun q => if q.1 == k then (k, v) else q) rest) :=
        List.find?_cons_of_neg _ hk
      rw [step]
      refine find?_keyreplace rest k v ?_
      rcases List.any_eq_true.mp h with ⟨x, hx, hxk⟩
      rcases List.mem_cons.mp hx with rfl | hx'
      · exact absurd hxk hk
      · exact List.any_eq_true.mpr ⟨x, hx', hxk⟩

theorem mapGet_mapSet_self {α β : Type} [BEq α] [LawfulBEq α]
    (m : List (α × β)) (k : α) (v : β) : mapGet (mapSet m k v) k = some v := by
  unfold mapGet mapSet
  by_cases hany : m.any (fun p => p.1 == k) = true
  · rw [if_pos hany, find?_keyreplace m k v hany]
    rfl
  · rw [if_neg hany]
    have hnone : m.find? (fun p => p.1 == k) = Option.none := by
      rw [List.find?_eq_none]
      intro x hx hxk
      exact hany (List.any_eq_true.mpr ⟨x, hx, hxk⟩)
    have hsingle : ([(k, v)] : List (α × β)).find? (fun p => p.1 == k) = some (k, v) :=
      List.find?_cons_of_pos _ (by simp)
    rw [List.find?_append, hnone, hsingle]
    rfl

theorem mapGet_mapDelete_self {α β : Type} [BEq α] [LawfulBEq α]
    (m : List (α × β)) (k : α) : mapGet (mapDelete m k) k = Option.none := by
  unfold mapGet mapDelete
  have hnone : (m.filter (fun p => p.1 != k)).find? (fun p => p.1 == k) = Option.none := by
    rw [List.find?_eq_none]
    intro x hx hxk
    have hne := (List.mem_filter.mp hx).2
    rw [bne_iff_ne] at hne
    exact hne (by simpa using hxk)
  rw [hnone]
  rfl

theorem find?_map_ite {α : Type} (q : α → Bool) (v : α) (hq : q v = true) :
    ∀ l : List α, (l.find? q).isSome = true →
      (l.map (fun t => if q t then v else t)).find? q = some v := by
  intro l
  induction l with
  | nil => intro h; simp at h
  | cons a as ih =>
    intro h
    by_cases ha : q a = true
    · rw [List.map_cons, if_pos ha]
      exact List.find?_cons_of_pos _ hq
    · rw [List.map_cons, if_neg ha]
      have step :
          List.find? q (a :: List.map (fun t => if q t then v else t) as)
            = List.find? q (List.map (fun t => if q t then v else t) as) :=
        List.find?_cons_of_neg _ ha
      rw [step]
      apply ih
      have hstep : List.find? q (a :: as) = List.find? q as :=
        List.find?_cons_of_neg _ ha
      rw [hstep] at h
      exact h

theorem find?_nodup_key {α : Type} (key : α → Nat) :
    ∀ (l : List α) (t : α), (l.map key).Nodup → t ∈ l →
      l.find? (fun x => key x == key t) = some t := by
  intro l
  induction l with
  | nil => intro t _ ht; cases ht
  | cons a as ih =>
    intro t hnd ht
    rw [List.map_cons, List.nodup_cons] at hnd
    rcases List.mem_cons.mp ht with rfl | h
    · exact List.find?_cons_of_pos _ (by simp)
    · have hka : ¬(key a == key t) = true := by
        simp only [beq_iff_eq]
        intro he
        exact hnd.1 (he ▸ List.mem_map_of_mem key h)
      have step : List.find? (fun x => key x == key t) (a :: as)
          = List.find? (fun x => key x == key t) as :=
        List.find?_cons_of_neg _ hka
      rw [step]
      exact ih t hnd.2 h

/-- Every send a handler produces is addressed to the connection captured in
its closure. -/
theorem runHandler_recipient (s : ServerState) (h : Handler) (ev : KahootEvent)
    (p : ConnId × ServerMsg) (hp : p ∈ (runHandler s h ev).2) : p.1 = h.ws := by
  cases ev with
  | quizStart q =>
    simp only [runHandler, handleQuizStart] at hp
    split at hp <;> simp_all
  | questionStart q =>
    simp only [runHandler, handleQuestionStart] at hp
    split at hp <;> simp_all
  | questionEnd r =>
    simp only [runHandler, handleQuestionEnd] at hp
    split at hp
    · simp_all
    · split at hp <;> simp_all
  | quizEnd q =>
    simp only [runHandler, handleQuizEnd] at hp
    simp_all
  | error m =>
    simp only [runHandler, handleClientError] at hp
    simp_all
  | disconnect r =>
    simp only [runHandler, handleClientDisconnect] at hp
    simp_all

theorem cleanupGame_clients (s : ServerState) (gamePin : String) (ws : ConnId) :
    (cleanupGame s gamePin ws).clients = mapSet s.clients ws ClientRecord.cleared := by
  simp only [cleanupGame]
  split
  · rfl
  · split <;> rfl

theorem cleanupGame_storage (s : ServerState) (gamePin : String) (ws : ConnId) :
    (cleanupGame s gamePin ws).storage = s.storage := by
  simp only [cleanupGame]
  split
  · rfl
  · split <;> rfl

theorem cleanupGame_handlers (s : ServerState) (gamePin : String) (ws : ConnId) :
    (cleanupGame s gamePin ws).handlers = s.handlers := by
  simp only [cleanupGame]
  split
  · rfl
  · split <;> rfl

theorem cleanupGame_connected (s : ServerState) (gamePin : String) (ws : ConnId) :
    (cleanupGame s gamePin ws).connectedClients = s.connectedClients := by
  simp only [cleanupGame]
  split
  · rfl
  · split <;> rfl

theorem cleanupGame_no_player (s : ServerState) (gamePin : String) (ws : ConnId)
    (g : GameData)
    (hg : mapGet (cleanupGame s gamePin ws).activeGames gamePin = some g) :
    ws ∉ g.players := by
  simp only [cleanupGame] at hg
  split at hg
  case h_1 hnone =>
    rw [hnone] at hg
    cases hg
  case h_2 game hsome =>
    split at hg
    case isTrue hempty =>
      simp only [mapGet_mapDelete_self] at hg
      cases hg
    case isFalse hempty =>
      simp only [mapGet_mapSet_self, Option.some.injEq] at hg
      subst hg
      intro hmem
      have hbne := (List.mem_filter.mp hmem).2
      simp at hbne

theorem disconnectFromGame_storage (s : ServerState) (gamePin : String) (ws : ConnId) :
    (disconnectFromGame s gamePin ws).1.storage = s.storage := by
  simp only [disconnectFromGame]
  rw [cleanupGame_storage]
  split
  · split <;> rfl
  · rfl

/-! ## Concrete states used by witnesses and counterexamples -/

/-- State after connection 1 joined game "42" successfully. -/
def stJ1 : ServerState := (joinGame ServerState.init "42" 1 true "Player_1" "t").1

/-- State after connections 1 and 2 both joined game "42". -/
def stJ2 : ServerState := (joinGame stJ1 "42" 2 true "Player_2" "t").1

/-- The session record created by the first join. -/
def sess1 : GameSession :=
  { id := 1, gamePin := "42", gameId := some "kahoot-42", active := true,
    questionCount := 0, currentQuestion := 0, createdAt := "t" }

/-- A two-choice question payload. -/
def qp2 : QuestionPayload :=
  { index := 0, choices := [⟨"A"⟩, ⟨"B"⟩], question := some "Q1",
    qtype := some "quiz", timeLimit := 20000, points := 1000 }

/-- State after the `questionStart` event stored question 0 of game "42". -/
def stQ : ServerState := (handleQuestionStart stJ1 ⟨0, "42", 1⟩ qp2).1

/-- Connection 1 joins "42" twice (leaking its first client), then
connection 2 joins, then connection 1 sends the disconnect command. -/
def stT4 : ServerState :=
  (handleMessage (joinGame (joinGame stJ1 "42" 1 true "Player_1b" "t").1
      "42" 2 true "Player_2" "t").1 1 disconnectRaw true "n" "t").1

/-! ## C7 -/

/-- C7: `getGameSessionByPin` returns a stored session only when its
`gamePin` equals the queried code and its `active` flag is true; it returns
`undefined` exactly when no stored session matches actively. -/
theorem C7_getGameSessionByPin_spec (st : MemStorage) (pin : String) :
    (∀ sess, st.getGameSessionByPin pin = some sess →
        sess ∈ st.gameSessions ∧ sess.gamePin = pin ∧ sess.active = true) ∧
    (st.getGameSessionByPin pin = Option.none ↔
        ∀ sess ∈ st.gameSessions, ¬(sess.gamePin = pin ∧ sess.active = true)) := by
  unfold MemStorage.getGameSessionByPin
  constructor
  · intro sess hfind
    refine ⟨List.mem_of_find?_eq_some hfind, ?_⟩
    have hp := List.find?_some hfind
    simp only [Bool.and_eq_true, beq_iff_eq] at hp
    exact hp
  · rw [List.find?_eq_none]
    constructor
    · intro hall sess hmem hc
      have := hall sess hmem
      simp only [Bool.and_eq_true, beq_iff_eq] at this
      exact this ⟨hc.1, hc.2⟩
    · intro hall sess hmem hb
      simp only [Bool.and_eq_true, beq_iff_eq] at hb
      exact hall sess hmem hb

/-- Witness for C7 at a concrete store holding one active session. -/
theorem C7_witness :
    stJ1.storage.getGameSessionByPin "42" = some sess1 ∧
    (sess1 ∈ stJ1.storage.gameSessions ∧ sess1.gamePin = "42" ∧ sess1.active = true) :=
  ⟨by decide, (C7_getGameSessionByPin_spec stJ1.storage "42").1 sess1 (by decide)⟩

/-! ## C9 -/

/-- C9: storage lookup-misses are no-ops or absent values, never exceptions:
the two update operations return `undefined` and leave the store unchanged
when the id is absent, and the three finders return `undefined` when nothing
matches. -/
theorem C9_lookup_miss_spec :
    (∀ (st : MemStorage) (id : Nat) (u : SessionUpdate),
        (∀ sess ∈ st.gameSessions, sess.id ≠ id) →
          st.updateGameSession id u = (st, Option.none)) ∧
    (∀ (st : MemStorage) (id : Nat) (u : QuestionUpdate),
        (∀ q ∈ st.questions, q.id ≠ id) →
          st.updateQuestion id u = (st, Option.none)) ∧
    (∀ (st : MemStorage) (id : Nat),
        (∀ sess ∈ st.gameSessions, sess.id ≠ id) →
          st.getGameSession id = Option.none) ∧
    (∀ (st : MemStorage) (pin : String),
        (∀ sess ∈ st.gameSessions, ¬(sess.gamePin = pin ∧ sess.active = true)) →
          st.getGameSessionByPin pin = Option.none) ∧
    (∀ (st : MemStorage) (gid idx : Nat),
        (∀ q ∈ st.questions, ¬(q.gameSessionId = gid ∧ q.questionIndex = idx)) →
          st.getQuestionByIndex gid idx = Option.none) := by
  refine ⟨?_, ?_, ?_, ?_, ?_⟩
  · intro st id u hmiss
    unfold MemStorage.updateGameSession
    have hnone : st.gameSessions.find? (fun s => s.id == id) = Option.none := by
      rw [List.find?_eq_none]
      intro x hx hb
      exact hmiss x hx (by simpa using hb)
    rw [hnone]
  · intro st id u hmiss
    unfold MemStorage.updateQuestion
    have hnone : st.questions.find? (fun q => q.id == id) = Option.none := by
      rw [List.find?_eq_none]
      intro x hx hb
      exact hmiss x hx (by simpa using hb)
    rw [hnone]
  · intro st id hmiss
    unfold MemStorage.getGameSession
    rw [List.find?_eq_none]
    intro x hx hb
    exact hmiss x hx (by simpa using hb)
  · intro st pin hmiss
    unfold MemStorage.getGameSessionByPin
    rw [List.find?_eq_none]
    intro x hx hb
    simp only [Bool.and_eq_true, beq_iff_eq] at hb
    exact hmiss x hx hb
  · intro st gid idx hmiss
    unfold MemStorage.getQuestionByIndex
    rw [List.find?_eq_none]
    intro x hx hb
    simp only [Bool.and_eq_true, beq_iff_eq] at hb
    exact hmiss x hx hb

/-- Witness for C9: every lookup-miss branch exercised on the concrete store
of `stJ1` (which holds exactly one session, id 1, pin "42", and no
questions). -/
theorem C9_witness :
    stJ1.storage.updateGameSession 7 SessionUpdate.none = (stJ1.storage, Option.none) ∧
    stJ1.storage.updateQuestion 7 QuestionUpdate.none = (stJ1.storage, Option.none) ∧
    stJ1.storage.getGameSession 7 = Option.none ∧
    stJ1.storage.getGameSessionByPin "99" = Option.none ∧
    stJ1.storage.getQuestionByIndex 1 0 = Option.none :=
  ⟨C9_lookup_miss_spec.1 stJ1.storage 7 SessionUpdate.none (by decide),
   C9_lookup_miss_spec.2.1 stJ1.storage 7 QuestionUpdate.none (by decide),
   C9_lookup_miss_spec.2.2.1 stJ1.storage 7 (by decide),
   C9_lookup_miss_spec.2.2.2.1 stJ1.storage "99" (by decide),
   C9_lookup_miss_spec.2.2.2.2 stJ1.storage 1 0 (by decide)⟩

/-! ## C10 -/

/-- The answer built from choice `c` at running index `i`. -/
def choiceAnswer (c : Choice) (i : Nat) : Answer :=
  { text := c.answer, color := colors[i]?, shape := shapes[i]?, isCorrect := false }

theorem mapChoicesFrom_getElem (cs : List Choice) : ∀ (k i : Nat),
    (mapChoicesFrom k cs)[i]? = (cs[i]?).map (fun c => choiceAnswer c (k + i)) := by
  induction cs with
  | nil => intro k i; simp [mapChoicesFrom]
  | cons c rest ih =>
    intro k i
    cases i with
    | zero => simp [mapChoicesFrom, choiceAnswer]
    | succ j =>
      simp only [mapChoicesFrom, List.getElem?_cons_succ]
      rw [ih (k + 1) j]
      have harith : k + 1 + j = k + (j + 1) := by omega
      rw [harith]

theorem mapChoicesFrom_length (cs : List Choice) : ∀ k : Nat,
    (mapChoicesFrom k cs).length = cs.length := by
  induction cs with
  | nil => intro k; rfl
  | cons c rest ih => intro k; simp [mapChoicesFrom, ih]

/-- C10: the answer-display mapping pairs the i-th choice with `colors[i]`
and `shapes[i]` from the fixed four-element arrays, so any question with
more than four choices yields an answer whose color and shape are absent
(JS `undefined`). -/
theorem C10_answer_mapping_spec (choices : List Choice) :
    ((mapChoices choices).length = choices.length) ∧
    (∀ i, i < choices.length → ∃ c, choices[i]? = some c ∧
        (mapChoices choices)[i]? = some (choiceAnswer c i)) ∧
    (4 < choices.length → ∃ a ∈ mapChoices choices,
        a.color = Option.none ∧ a.shape = Option.none) := by
  refine ⟨mapChoicesFrom_length choices 0, ?_, ?_⟩
  · intro i hi
    rcases List.getElem?_eq_some.mpr ⟨hi, rfl⟩ with hc
    refine ⟨choices[i], hc, ?_⟩
    unfold mapChoices
    rw [mapChoicesFrom_getElem choices 0 i, hc]
    simp
  · intro hlen
    have h4 : 4 < choices.length := hlen
    have hc : choices[4]? = some choices[4] := List.getElem?_eq_some.mpr ⟨h4, rfl⟩
    have hm : (mapChoices choices)[4]? = some (choiceAnswer choices[4] 4) := by
      unfold mapChoices
      rw [mapChoicesFrom_getElem choices 0 4, hc]
      simp
    refine ⟨_, List.getElem?_mem hm, ?_, ?_⟩ <;> rfl

/-- Witness for C10 on a five-choice question: the fifth produced answer has
no color and no shape. -/
theorem C10_witness :
    (4 < ([⟨"A"⟩, ⟨"B"⟩, ⟨"C"⟩, ⟨"D"⟩, ⟨"E"⟩] : List Choice).length) ∧
    (∃ a ∈ mapChoices [⟨"A"⟩, ⟨"B"⟩, ⟨"C"⟩, ⟨"D"⟩, ⟨"E"⟩],
        a.color = Option.none ∧ a.shape = Option.none) :=
  ⟨by decide,
   (C10_answer_mapping_spec [⟨"A"⟩, ⟨"B"⟩, ⟨"C"⟩, ⟨"D"⟩, ⟨"E"⟩]).2.2 (by decide)⟩

/-! ## C8 -/

/-- C8: a malformed inbound frame (unparseable JSON or one failing
`clientMessageSchema`) is answered with exactly one generic error reply and
leaves the whole server state unchanged. -/
theorem C8_malformed_message_spec (s : ServerState) (ws : ConnId) (raw : RawInbound)
    (joinOk : Bool) (randomName now : String)
    (hmal : parseInbound raw = Option.none) :
    handleMessage s ws raw joinOk randomName now
      = (s, [(ws, ServerMsg.errorMsg "Invalid message format or action")]) := by
  unfold handleMessage
  rw [hmal]

/-- Witness for C8: a frame that is valid JSON but fails the schema. -/
theorem C8_witness :
    parseInbound (RawInbound.json (Json.str "hi")) = Option.none ∧
    handleMessage ServerState.init 1 (RawInbound.json (Json.str "hi")) true "P" "t"
      = (ServerState.init, [(1, ServerMsg.errorMsg "Invalid message format or action")]) :=
  ⟨rfl, C8_malformed_message_spec ServerState.init 1 (RawInbound.json (Json.str "hi"))
      true "P" "t" rfl⟩

/-! ## C1 -/

/-- C1 counterexample: with two connections (1 and 2) registered in the
players set of game "42", a `quizStart` event delivered through the
registered handler sends to connection 1 only — not to every member of the
players set. -/
theorem C1_cex :
    ((mapGet stJ2.activeGames "42").map (fun g => g.players)) = some [1, 2] ∧
    (deliverEvent stJ2 0 (KahootEvent.quizStart ⟨"Quiz", 5⟩)).2.map Prod.fst = [1] := by
  constructor
  · rfl
  · rfl

/-- C1 amended: each external-client event is relayed only to the single
connection captured by that client's event-handler closure (the connection
whose join created the client), never fanned out to the rest of the game's
players set. -/
theorem C1_amended_single_recipient (s : ServerState) (h : Handler) (ev : KahootEvent)
    (p : ConnId × ServerMsg) (hp : p ∈ (runHandler s h ev).2) : p.1 = h.ws :=
  runHandler_recipient s h ev p hp

/-- Witness for the amended C1 at a concrete event delivery. -/
theorem C1_witness :
    (((1 : ConnId), ServerMsg.quizStartState "42" 0 5 0)
        ∈ (runHandler stJ2 ⟨0, "42", 1⟩ (KahootEvent.quizStart ⟨"Quiz", 5⟩)).2) ∧
    ((1 : ConnId), ServerMsg.quizStartState "42" 0 5 0).1 = (⟨0, "42", 1⟩ : Handler).ws :=
  ⟨by decide, C1_amended_single_recipient stJ2 ⟨0, "42", 1⟩
      (KahootEvent.quizStart ⟨"Quiz", 5⟩) (1, ServerMsg.quizStartState "42" 0 5 0)
      (by decide)⟩

/-! ## C2 -/

/-- C2 counterexample: connection 1 is joined to game "42" with an active
stored session; after processing its disconnect, an active stored session
for "42" still exists — disconnect never marks the session inactive. -/
theorem C2_cex :
    ((disconnectFromGame stJ1 "42" 1).1.storage.getGameSessionByPin "42").isSome = true := by
  decide

theorem svcUpdateGameSession_storage_of_found (s : ServerState) (gamePin : String)
    (u : SessionUpdate) (sess : GameSession)
    (hsess : s.storage.getGameSessionByPin gamePin = some sess) :
    (svcUpdateGameSession s gamePin u).storage
      = (s.storage.updateGameSession sess.id u).1 := by
  unfold svcUpdateGameSession
  rw [hsess]

theorem updateGameSession_found_sets_active (st : MemStorage) (sessId : Nat)
    (t : GameSession)
    (hfind : st.gameSessions.find? (fun x => x.id == sessId) = some t) :
    (st.updateGameSession sessId
        { SessionUpdate.none with active := some false }).1.getGameSession sessId
      = some (applySessionUpdate t { SessionUpdate.none with active := some false }) := by
  unfold MemStorage.updateGameSession
  rw [hfind]
  unfold MemStorage.getGameSession
  dsimp only
  have hqv : ((applySessionUpdate t
        { SessionUpdate.none with active := some false }).id == sessId) = true := by
    have := List.find?_some hfind
    simpa [applySessionUpdate] using this
  exact find?_map_ite (fun x => x.id == sessId) _ hqv st.gameSessions
    (by rw [hfind]; rfl)

/-- C2 amended: a `quizEnd` event marks the first active stored session for
the join code inactive; a disconnect leaves the stored sessions entirely
unchanged (so a session active before the disconnect remains active). -/
theorem C2_amended_inactive_on_quizEnd_only :
    (∀ (s : ServerState) (h : Handler) (ev : QuizEndPayload) (sess : GameSession),
        s.storage.getGameSessionByPin h.gamePin = some sess →
        ∃ sess', (handleQuizEnd s h ev).1.storage.getGameSession sess.id = some sess' ∧
          sess'.active = false) ∧
    (∀ (s : ServerState) (gamePin : String) (ws : ConnId),
        (disconnectFromGame s gamePin ws).1.storage = s.storage) := by
  constructor
  · intro s h ev sess hsess
    have hstore : (handleQuizEnd s h ev).1.storage
        = (svcUpdateGameSession s h.gamePin
            { SessionUpdate.none with active := some false }).storage := rfl
    rw [hstore,
        svcUpdateGameSession_storage_of_found s h.gamePin _ sess hsess]
    rcases hfind : s.storage.gameSessions.find? (fun x => x.id == sess.id) with _ | t
    · exfalso
      have hmem : sess ∈ s.storage.gameSessions := List.mem_of_find?_eq_some hsess
      have hs : (s.storage.gameSessions.find? (fun x => x.id == sess.id)).isSome = true :=
        List.find?_isSome.mpr ⟨sess, hmem, by simp⟩
      rw [hfind] at hs
      cases hs
    · exact ⟨applySessionUpdate t { SessionUpdate.none with active := some false },
        updateGameSession_found_sets_active s.storage sess.id t hfind, rfl⟩
  · intro s gamePin ws
    exact disconnectFromGame_storage s gamePin ws

/-- Witness for the amended C2 at the concrete joined state. -/
theorem C2_witness :
    stJ1.storage.getGameSessionByPin "42" = some sess1 ∧
    (∃ sess', (handleQuizEnd stJ1 ⟨0, "42", 1⟩ ⟨5⟩).1.storage.getGameSession sess1.id
        = some sess' ∧ sess'.active = false) :=
  ⟨by decide,
   C2_amended_inactive_on_quizEnd_only.1 stJ1 ⟨0, "42", 1⟩ ⟨5⟩ sess1 (by decide)⟩

/-! ## C3 -/

/-- C3 counterexample: after two connections join game "42", the registry
stores only client 0, yet both client 0 and client 1 have registered
handlers, and an event from client 1 also produces relay output and changes
storage — so more than one external-client handle drives the relay and
storage updates for the code. -/
theorem C3_cex :
    ((mapGet stJ2.activeGames "42").map (fun g => g.client) = some 0) ∧
    stJ2.handlers = [⟨0, "42", 1⟩, ⟨1, "42", 2⟩] ∧
    (deliverEvent stJ2 0 (KahootEvent.quizStart ⟨"Quiz", 5⟩)).2 ≠ [] ∧
    (deliverEvent stJ2 1 (KahootEvent.quizStart ⟨"Quiz", 5⟩)).2 ≠ [] ∧
    (deliverEvent stJ2 1 (KahootEvent.quizStart ⟨"Quiz", 5⟩)).1.storage ≠ stJ2.storage := by
  refine ⟨rfl, rfl, ?_, ?_, ?_⟩ <;> decide

/-- C3 amended: `activeGames` stores exactly one client handle per join code
— the first joiner's, which later joins to the same code leave in place —
but every join also registers handlers for a fresh client of its own, so the
stored handle is not the only one whose events drive the relay. -/
theorem C3_amended_registry_keeps_first_client (s : ServerState) (pin : String)
    (ws : ConnId) (name now : String) (g : GameData)
    (hg : mapGet s.activeGames pin = some g) :
    ((mapGet (joinGame s pin ws true name now).1.activeGames pin).map
        (fun x => x.client) = some g.client) ∧
    (joinGame s pin ws true name now).1.handlers
      = s.handlers ++ [{ client := s.nextClientId, gamePin := pin, ws := ws }] := by
  simp only [joinGame, if_pos]
  rw [hg]
  constructor
  · rw [mapGet_mapSet_self]
    rfl
  · rfl

/-- The game registered by the first join of connection 1 to "42". -/
def game1 : GameData :=
  { client := 0, players := [1], currentQuiz := Option.none,
    currentQuestion := Option.none, questionAnswers := [], correctAnswers := [],
    currentQuestionIndex := 0, totalQuestions := 0, points := 0 }

/-- Witness for the amended C3: the second join to "42" keeps client 0 as
the stored handle. -/
theorem C3_witness :
    (mapGet stJ1.activeGames "42" = some game1) ∧
    ((mapGet (joinGame stJ1 "42" 2 true "Player_2" "t").1.activeGames "42").map
        (fun x => x.client) = some 0) :=
  ⟨by decide,
   (C3_amended_registry_keeps_first_client stJ1 "42" 2 "Player_2" "t" game1 (by decide)).1⟩

/-! ## C5 -/

/-- C5 counterexample: a join command with the well-formed code "1234567"
whose external join succeeds produces zero outbound messages, not exactly
one. -/
theorem C5_cex :
    (handleMessage ServerState.init 1 (joinRaw "1234567") true "Player_1" "t").2 = [] := by
  rfl

/-- C5 amended: a join command with a well-formed (non-empty) code produces
no outbound notification at all when the external join succeeds (the first
state notification only arrives later with the quizStart event), and exactly
one error notification when the external join fails. -/
theorem C5_amended_join_notifications (s : ServerState) (ws : ConnId)
    (pin name now : String) (hpin : pin ≠ "") :
    ((handleMessage s ws (joinRaw pin) true name now).2 = []) ∧
    ((handleMessage s ws (joinRaw pin) false name now).2
      = [(ws, ServerMsg.errorMsg "Could not join game. Invalid PIN or game not found.")]) := by
  have hparse : parseInbound (joinRaw pin)
      = some { type := MsgType.join, gamePin := some pin, answer := Option.none,
               autoAnswer := Option.none, answerDelay := Option.none } := rfl
  have hne : (pin == "") = false := by
    simpa using hpin
  constructor
  · unfold handleMessage
    rw [hparse]
    simp [hne, joinGame]
  · unfold handleMessage
    rw [hparse]
    simp [hne, joinGame]

/-- Witness for the amended C5 with the concrete code "1234567". -/
theorem C5_witness :
    ("1234567" : String) ≠ "" ∧
    (handleMessage ServerState.init 1 (joinRaw "1234567") false "P" "t").2
      = [(1, ServerMsg.errorMsg "Could not join game. Invalid PIN or game not found.")] :=
  ⟨by decide,
   (C5_amended_join_notifications ServerState.init 1 "1234567" "P" "t" (by decide)).2⟩

/-! ## C6 -/

/-- All fields of a stored question other than `answers` and
`correctAnswer` agree. -/
def sameFrame (q₀ q₁ : Question) : Prop :=
  q₁.id = q₀.id ∧ q₁.gameSessionId = q₀.gameSessionId ∧
  q₁.questionIndex = q₀.questionIndex ∧ q₁.questionText = q₀.questionText ∧
  q₁.questionType = q₀.questionType ∧ q₁.timeLimit = q₀.timeLimit ∧
  q₁.points = q₀.points

/-- The question the `questionEnd` handler for `h.gamePin` at index
`ev.questionIndex` looks up and updates. -/
def isTargetQuestion (s : ServerState) (h : Handler) (ev : QuestionEndPayload)
    (q₀ : Question) : Prop :=
  ∃ sess tq, s.storage.getGameSessionByPin h.gamePin = some sess ∧
    s.storage.getQuestionByIndex sess.id ev.questionIndex = some tq ∧ q₀ = tq

theorem sameFrame_refl (q : Question) : sameFrame q q :=
  ⟨rfl, rfl, rfl, rfl, rfl, rfl, rfl⟩

theorem updateQuestion_questions_frame (st : MemStorage) (tq : Question)
    (c : List Nat) (hnd : (st.questions.map (fun q => q.id)).Nodup)
    (htq : tq ∈ st.questions) :
    List.Forall₂ (fun q₀ q₁ => sameFrame q₀ q₁ ∧ (q₁ ≠ q₀ → q₀ = tq))
      st.questions
      (st.updateQuestion tq.id (questionEndUpdate c tq)).1.questions := by
  have hfind : st.questions.find? (fun x => x.id == tq.id) = some tq :=
    find?_nodup_key (fun q => q.id) st.questions tq hnd htq
  unfold MemStorage.updateQuestion
  rw [hfind]
  dsimp only
  rw [List.forall₂_map_right_iff, List.forall₂_same]
  intro x hx
  by_cases hid : (x.id == tq.id) = true
  · have hxeq : x = tq := List.inj_on_of_nodup_map hnd hx htq (by simpa using hid)
    subst hxeq
    rw [if_pos hid]
    exact ⟨⟨rfl, rfl, rfl, rfl, rfl, rfl, rfl⟩, fun _ => rfl⟩
  · rw [if_neg hid]
    exact ⟨sameFrame_refl x, fun hne => absurd rfl hne⟩

/-- C6: a `questionEnd` event at index N changes at most the stored record
of the question it looked up (the one at index N of the session found for
the join code), and even on that record it only touches `answers` and
`correctAnswer` — every other stored question, and every other field of the
target question, is unchanged. -/
theorem C6_questionEnd_frame (s : ServerState) (h : Handler) (ev : QuestionEndPayload)
    (hnd : (s.storage.questions.map (fun q => q.id)).Nodup) :
    List.Forall₂
      (fun q₀ q₁ => sameFrame q₀ q₁ ∧ (q₁ ≠ q₀ → isTargetQuestion s h ev q₀))
      s.storage.questions (handleQuestionEnd s h ev).1.storage.questions := by
  have hrefl : ∀ l : List Question,
      List.Forall₂ (fun q₀ q₁ => sameFrame q₀ q₁ ∧ (q₁ ≠ q₀ → isTargetQuestion s h ev q₀))
        l l := by
    intro l
    rw [List.forall₂_same]
    intro x _
    exact ⟨sameFrame_refl x, fun hne => absurd rfl hne⟩
  rcases hgame : mapGet s.activeGames h.gamePin with _ | game
  · have hsame : (handleQuestionEnd s h ev).1.storage.questions = s.storage.questions := by
      unfold handleQuestionEnd
      rw [hgame]
    rw [hsame]
    exact hrefl _
  · rcases hsess : s.storage.getGameSessionByPin h.gamePin with _ | session
    · have hsame : (handleQuestionEnd s h ev).1.storage.questions = s.storage.questions := by
        unfold handleQuestionEnd
        rw [hgame]
        dsimp only
        rw [hsess]
        dsimp only
        split <;> rfl
      rw [hsame]
      exact hrefl _
    · rcases hq : s.storage.getQuestionByIndex session.id ev.questionIndex with _ | tq
      · have hsame : (handleQuestionEnd s h ev).1.storage.questions = s.storage.questions := by
          unfold handleQuestionEnd
          rw [hgame]
          dsimp only
          rw [hsess]
          dsimp only
          rw [hq]
          dsimp only
          split <;> rfl
        rw [hsame]
        exact hrefl _
      · have htarget : (handleQuestionEnd s h ev).1.storage.questions
            = (s.storage.updateQuestion tq.id
                (questionEndUpdate (correctIndicesOf ev.correctChoices) tq)).1.questions := by
          unfold handleQuestionEnd
          rw [hgame]
          dsimp only
          rw [hsess]
          dsimp only
          rw [hq]
          dsimp only
          split <;> rfl
        rw [htarget]
        have hmem : tq ∈ s.storage.questions := List.mem_of_find?_eq_some hq
        refine List.Forall₂.imp ?_
          (updateQuestion_questions_frame s.storage tq (correctIndicesOf ev.correctChoices)
            hnd hmem)
        intro a b hab
        exact ⟨hab.1, fun hne => ⟨session, tq, hsess, hq, hab.2 hne⟩⟩

/-- Witness for C6: a concrete `questionEnd` on the state holding the
stored two-answer question 0 of game "42". -/
theorem C6_witness :
    ((stQ.storage.questions.map (fun q => q.id)).Nodup) ∧
    List.Forall₂
      (fun q₀ q₁ => sameFrame q₀ q₁ ∧
        (q₁ ≠ q₀ → isTargetQuestion stQ ⟨0, "42", 1⟩ ⟨0, [true, false]⟩ q₀))
      stQ.storage.questions
      (handleQuestionEnd stQ ⟨0, "42", 1⟩ ⟨0, [true, false]⟩).1.storage.questions :=
  ⟨by decide, C6_questionEnd_frame stQ ⟨0, "42", 1⟩ ⟨0, [true, false]⟩ (by decide)⟩

/-! ## C4 -/

/-- C4 counterexample: connection 1 joined "42" twice (the first join's
client is never detached), then a third connection joined, then connection 1
sent the disconnect command.  Its record is cleared, yet a later `quizStart`
event from its first, still-attached client relays a message to
connection 1. -/
theorem C4_cex :
    mapGet stT4.clients 1 = some ClientRecord.cleared ∧
    ((1 : ConnId), ServerMsg.quizStartState "42" 0 5 0)
      ∈ (deliverEvent stT4 0 (KahootEvent.quizStart ⟨"Quiz", 5⟩)).2 := by
  constructor
  · rfl
  · decide

/-- C4 amended: a disconnect command clears the connection's record, removes
it from the game's player set, and detaches the client handle the record
held; provided every handler registered for the connection refers to that
one client (the single-join case — a re-join leaks the older client's
handlers), no subsequent external-client event relays any message to the
connection. -/
theorem C4_amended_disconnect_stops_relay (s : ServerState) (ws : ConnId)
    (pin : String) (c : ClientId) (u : Option String)
    (hrec : mapGet s.clients ws = some ⟨some pin, some c, u⟩)
    (hsingle : ∀ hd ∈ s.handlers, hd.ws = ws → hd.client = c) :
    (mapGet (handleMessage s ws disconnectRaw true "n" "t").1.clients ws
        = some ClientRecord.cleared) ∧
    (∀ g, mapGet (handleMessage s ws disconnectRaw true "n" "t").1.activeGames pin
        = some g → ws ∉ g.players) ∧
    (∀ (c' : ClientId) (ev : KahootEvent) (p : ConnId × ServerMsg),
        p ∈ (deliverEvent (handleMessage s ws disconnectRaw true "n" "t").1 c' ev).2 →
        p.1 ≠ ws) := by
  have hparse : parseInbound disconnectRaw
      = some { type := MsgType.disconnect, gamePin := Option.none,
               answer := Option.none, autoAnswer := Option.none,
               answerDelay := Option.none } := rfl
  have hmsg : (handleMessage s ws disconnectRaw true "n" "t").1
      = (disconnectFromGame s pin ws).1 := by
    unfold handleMessage
    rw [hparse]
    dsimp only
    rw [hrec]
  have hdfg : (disconnectFromGame s pin ws).1
      = cleanupGame
          { s with connectedClients := s.connectedClients.filter (fun x => x != c) }
          pin ws := by
    unfold disconnectFromGame
    rw [hrec]
  refine ⟨?_, ?_, ?_⟩
  · rw [hmsg, hdfg, cleanupGame_clients]
    exact mapGet_mapSet_self _ ws ClientRecord.cleared
  · intro g hg
    rw [hmsg, hdfg] at hg
    exact cleanupGame_no_player _ pin ws g hg
  · intro c' ev p hp
    rw [hmsg, hdfg] at hp
    unfold deliverEvent at hp
    split at hp
    case isTrue hconn =>
      split at hp
      case h_1 hd hfd =>
        intro hpws
        have h1 : p.1 = hd.ws := runHandler_recipient _ hd ev p hp
        have hws : hd.ws = ws := by rw [← h1]; exact hpws
        have hmemh : hd ∈ s.handlers := by
          have hm := List.mem_of_find?_eq_some hfd
          rw [cleanupGame_handlers] at hm
          exact hm
        have hcl : hd.client = c := hsingle hd hmemh hws
        have hc' : hd.client = c' := by
          have := List.find?_some hfd
          simpa using this
        have hcc : c' = c := by rw [← hc', hcl]
        have hconn2 : c' ∈ s.connectedClients.filter (fun x => x != c) := by
          have hcg := hconn
          rw [cleanupGame_connected] at hcg
          exact hcg
        have hne := (List.mem_filter.mp hconn2).2
        rw [bne_iff_ne] at hne
        exact hne hcc
      case h_2 hfd =>
        simp at hp
    case isFalse hconn =>
      simp at hp

/-- Witness for the amended C4 at the single-join state. -/
theorem C4_witness :
    (mapGet stJ1.clients 1 = some ⟨some "42", some 0, some "Player_1"⟩) ∧
    (∀ hd ∈ stJ1.handlers, hd.ws = 1 → hd.client = 0) ∧
    (mapGet (handleMessage stJ1 1 disconnectRaw true "n" "t").1.clients 1
        = some ClientRecord.cleared) :=
  ⟨by decide, by decide,
   (C4_amended_disconnect_stops_relay stJ1 1 "42" 0 (some "Player_1")
      (by decide) (by decide)).1⟩

end KahootCheats
